import Mathlib

set_option maxHeartbeats 1000000

/-!
Shallow embedding of the `hadoop_g5k` cluster lifecycle controller
(`hadoop_g5k/cluster.py`) and of the Cassandra variant
(`hadoop_g5k/ecosystem/cassandra.py`).

Remote commands are modelled by their reported outcome (a `Bool` for
`finished_ok`) and by an explicit trace of issued commands; the in-memory
flags of the controller object become an explicit state record.  Machine
integers from Python 2 are modelled as `Int` with floor division
(`Int.fdiv`), which is Python 2's `/` on ints; Python's `ZeroDivisionError`
and `AttributeError` become explicit error values.
-/

/-! ## Configuration files (constants from cluster.py) -/

def CORE_CONF_FILE : String := "core-site.xml"

def HDFS_CONF_FILE : String := "hdfs-site.xml"

def MR_CONF_FILE : String := "mapred-site.xml"

def DEFAULT_HADOOP_BASE_DIR : String := "/tmp/hadoop"

def DEFAULT_HADOOP_CONF_DIR : String := DEFAULT_HADOOP_BASE_DIR ++ "/conf"

def DEFAULT_HADOOP_TEMP_DIR : String := DEFAULT_HADOOP_BASE_DIR ++ "/tmp"

/-! ## Configuration store

An XML configuration file is a named ordered list of `(property, value)`
pairs.  `replace_in_xml_file` and `get_xml_params` live in
`hadoop_g5k/util.py`, which is not among the given sources; they are
modelled from the spec (section 4.2). -/

structure XmlFile where
  name : String
  props : List (String × String)
deriving DecidableEq

def fileHasKey (f : XmlFile) (key : String) : Bool :=
  f.props.any (fun p => p.1 == key)

/-- Modelled from the spec: `hadoop_g5k.util.replace_in_xml_file` is not part
of the given sources.  Per spec section 4.2, it replaces the value of `key` in
place when the file contains it (returning true) and, when `create` is set,
appends the property when absent (returning false). -/
def replace_in_xml_file (f : XmlFile) (key value : String) (create : Bool) :
    XmlFile × Bool :=
  if fileHasKey f key then
    (⟨f.name, f.props.map (fun p => if p.1 == key then (key, value) else p)⟩, true)
  else if create then
    (⟨f.name, f.props ++ [(key, value)]⟩, false)
  else
    (f, false)

/-- Modelled from the spec: `hadoop_g5k.util.get_xml_params` is not part of
the given sources.  Per spec section 4.2, it looks each requested name up in
the file, yielding its value when present and a missing value otherwise. -/
def get_xml_params (f : XmlFile) (names : List String) :
    List (String × Option String) :=
  names.map (fun n => (n, (f.props.find? (fun p => p.1 == n)).map (fun p => p.2)))

/-- The inner scan of `HadoopCluster.change_conf`: try each fetched file in
order, replacing the parameter in the first file that contains it (`break`
on a successful `replace_in_xml_file`). -/
def change_scan : List XmlFile → String → String → List XmlFile × Bool
  | [], _, _ => ([], false)
  | f :: rest, key, value =>
    let r := replace_in_xml_file f key value false
    if r.2 then (r.1 :: rest, true)
    else
      let rr := change_scan rest key value
      (f :: rr.1, rr.2)

/-- One parameter of `HadoopCluster.change_conf`: scan all fetched files; on
a miss, fall back to `replace_in_xml_file(tmp_dir/MR_CONF_FILE, name, value,
True)`, which appends into the mapred file (creating it when the fetched set
somehow lacks it — spec: "appends the key/value to a designated fallback
file"). -/
def change_one (files : List XmlFile) (key value : String) : List XmlFile :=
  let r := change_scan files key value
  if r.2 then r.1
  else if r.1.any (fun f => f.name == MR_CONF_FILE) then
    r.1.map (fun f =>
      if f.name == MR_CONF_FILE then (replace_in_xml_file f key value true).1 else f)
  else
    r.1 ++ [⟨MR_CONF_FILE, [(key, value)]⟩]

/-- `HadoopCluster.change_conf`, at the level of one hardware-class group's
fetched configuration bundle. -/
def change_conf (files : List XmlFile) (params : List (String × String)) :
    List XmlFile :=
  params.foldl (fun fs kv => change_one fs kv.1 kv.2) files

/-- One file's contribution to `HadoopCluster.get_conf`: collect every
remaining parameter the file provides a truthy (non-empty) value for and
drop it from the remaining names. -/
def get_conf_file (f : XmlFile) (acc : List (String × String) × List String) :
    List (String × String) × List String :=
  (get_xml_params f acc.2).foldl
    (fun a pv =>
      match pv.2 with
      | some v => if v = "" then a else (a.1 ++ [(pv.1, v)], a.2.erase pv.1)
      | none => a)
    acc

/-- `HadoopCluster.get_conf`, at the level of the fetched configuration
bundle. -/
def get_conf (files : List XmlFile) (param_names : List String) :
    List (String × String) :=
  (files.foldl (fun a f => get_conf_file f a) ([], param_names)).1

/-! ## Errors -/

inductive Err where
  | notInitialized
  | zeroDivision
  | attributeError (field : String)
deriving DecidableEq

/-! ## Sizing policy (`HadoopCluster._configure_servers`) -/

structure HostAttrs where
  smt_size : Nat
  ram_size : Nat
deriving DecidableEq

/-- `total_memory_mb = (int(ram_size) / (1024 * 1024)) - 2 * 1024`
(Python 2 integer division is floor division). -/
def total_memory_mb (a : HostAttrs) : Int :=
  (a.ram_size : Int).fdiv (1024 * 1024) - 2 * 1024

/-- `mem_per_slot_mb = total_memory_mb / (num_cores - 1)` (floor division;
meaningful only when `smt_size ≠ 1`, where Python raises). -/
def mem_per_slot_mb (a : HostAttrs) : Int :=
  (total_memory_mb a).fdiv ((a.smt_size : Int) - 1)

/-- `HadoopCluster._configure_servers`: the list of xml replacements
performed for one hardware-class group, from the group's representative
host attributes.  Python computes `mem_per_slot_mb` before any write, so a
single-core representative raises `ZeroDivisionError` before any setting is
written. -/
def configure_servers (master : String) (hdfs_port mapred_port : Nat)
    (a : HostAttrs) : Except Err (List (String × String)) :=
  if (a.smt_size : Int) - 1 = 0 then
    Except.error Err.zeroDivision
  else
    Except.ok
      ([("fs.default.name", "hdfs://" ++ master ++ ":" ++ toString hdfs_port ++ "/"),
        ("hadoop.tmp.dir", DEFAULT_HADOOP_TEMP_DIR),
        ("topology.script.file.name", DEFAULT_HADOOP_CONF_DIR ++ "/topo.sh"),
        ("mapred.job.tracker", master ++ ":" ++ toString mapred_port),
        ("mapred.tasktracker.map.tasks.maximum", toString ((a.smt_size : Int) - 1)),
        ("mapred.tasktracker.reduce.tasks.maximum", toString ((a.smt_size : Int) - 1))] ++
       (if mem_per_slot_mb a ≤ 0 then [] else
        [("mapred.child.java.opts", "-Xmx" ++ toString (mem_per_slot_mb a) ++ "m")]))

/-! ## Lifecycle state machine (`HadoopCluster`)

The class-level flags of `HadoopCluster` become a state record.
`temp_conf_dir` is `none` until `_copy_base_conf` creates the attribute
during `initialize` (a fresh object has no such attribute, so touching it
raises `AttributeError`). -/

structure HadoopState where
  initialized : Bool
  running : Bool
  running_dfs : Bool
  running_map_reduce : Bool
  temp_conf_dir : Option String
deriving DecidableEq

/-- A fresh `HadoopCluster` object: every class-level flag is `False` and
`temp_conf_dir` is not yet an attribute. -/
def initialState : HadoopState :=
  ⟨false, false, false, false, none⟩

/-- Remote commands issued by the controller, in issue order. -/
inductive Cmd where
  | stopMapred
  | stopDfs
  | startDfs
  | startMapred
  | formatDfs
  | getBaseConf
  | copyConf
  | rmLogs
  | rmData
  | execCmd
  | kill (host : Nat) (pids : List String)
deriving DecidableEq

/-- Result of running one controller method: the new object state, the
trace of remote commands issued, and the Python exception it raised, if
any. -/
structure Res where
  st : HadoopState
  trace : List Cmd
  err : Option Err
deriving DecidableEq

/-- `HadoopCluster.stop_dfs`: after `_check_initialization`, run
`stop-dfs.sh` on the master; the flag is cleared only when the remote
command reports `finished_ok`. -/
def stop_dfs (ok : Bool) (s : HadoopState) : Res :=
  if s.initialized then
    ⟨if ok then { s with running_dfs := false } else s, [Cmd.stopDfs], none⟩
  else ⟨s, [], some Err.notInitialized⟩

/-- `HadoopCluster.stop_map_reduce`: same shape as `stop_dfs` for
`stop-mapred.sh` and `running_map_reduce`. -/
def stop_map_reduce (ok : Bool) (s : HadoopState) : Res :=
  if s.initialized then
    ⟨if ok then { s with running_map_reduce := false } else s, [Cmd.stopMapred], none⟩
  else ⟨s, [], some Err.notInitialized⟩

/-- `HadoopCluster.stop`: `_check_initialization`, then
`stop_map_reduce`, then `stop_dfs`, then `self.running = False`
unconditionally. -/
def stop (okMR okDfs : Bool) (s : HadoopState) : Res :=
  if s.initialized then
    let r1 := stop_map_reduce okMR s
    match r1.err with
    | some e => ⟨r1.st, r1.trace, some e⟩
    | none =>
      let r2 := stop_dfs okDfs r1.st
      match r2.err with
      | some e => ⟨r2.st, r1.trace ++ r2.trace, some e⟩
      | none => ⟨{ r2.st with running := false }, r1.trace ++ r2.trace, none⟩
  else ⟨s, [], some Err.notInitialized⟩

/-- `HadoopCluster.start_dfs`: no-op with a warning when `running_dfs` is
already true; otherwise run `start-dfs.sh`, setting the flag only when the
command reports `finished_ok`. -/
def start_dfs (ok : Bool) (s : HadoopState) : Res :=
  if s.initialized then
    if s.running_dfs then ⟨s, [], none⟩
    else ⟨if ok then { s with running_dfs := true } else s, [Cmd.startDfs], none⟩
  else ⟨s, [], some Err.notInitialized⟩

/-- `HadoopCluster.start_map_reduce`: same shape for `start-mapred.sh` and
`running_map_reduce` (the source's log messages in this method are swapped,
but the flag is still set only on `finished_ok`). -/
def start_map_reduce (ok : Bool) (s : HadoopState) : Res :=
  if s.initialized then
    if s.running_map_reduce then ⟨s, [], none⟩
    else ⟨if ok then { s with running_map_reduce := true } else s, [Cmd.startMapred], none⟩
  else ⟨s, [], some Err.notInitialized⟩

/-- `HadoopCluster.start`: `_check_initialization`, `start_dfs`,
`start_map_reduce`, then `self.running = True` unconditionally. -/
def start (okDfs okMR : Bool) (s : HadoopState) : Res :=
  if s.initialized then
    let r1 := start_dfs okDfs s
    match r1.err with
    | some e => ⟨r1.st, r1.trace, some e⟩
    | none =>
      let r2 := start_map_reduce okMR r1.st
      match r2.err with
      | some e => ⟨r2.st, r1.trace ++ r2.trace, some e⟩
      | none => ⟨{ r2.st with running := true }, r1.trace ++ r2.trace, none⟩
  else ⟨s, [], some Err.notInitialized⟩

/-- `HadoopCluster.format_dfs`: runs `hadoop namenode -format` on the
master; `finished_ok` only selects the log message, the state is never
touched and no exception is raised. -/
def format_dfs (_ok : Bool) (s : HadoopState) : Res :=
  ⟨s, [Cmd.formatDfs], none⟩

/-- `HadoopCluster.execute`: `_check_initialization`; when the command
needs a running cluster and it is not running, `start` it automatically,
then run the hadoop command on the chosen node. -/
def execute (should_be_running okDfs okMR : Bool) (s : HadoopState) : Res :=
  if s.initialized then
    let r :=
      if should_be_running && !s.running then start okDfs okMR s
      else ⟨s, [], none⟩
    match r.err with
    | some _ => r
    | none => ⟨r.st, r.trace ++ [Cmd.execCmd], none⟩
  else ⟨s, [], some Err.notInitialized⟩

/-! ## Cleaning and forced recovery -/

/-- `HadoopCluster.clean_conf`: `shutil.rmtree(self.temp_conf_dir)`.  The
attribute `temp_conf_dir` exists only once `_copy_base_conf` has run, so on
a fresh object this raises `AttributeError`. -/
def clean_conf (s : HadoopState) : Res :=
  match s.temp_conf_dir with
  | none => ⟨s, [], some (Err.attributeError "temp_conf_dir")⟩
  | some _ => ⟨s, [], none⟩

/-- Remote-command outcomes and per-hardware-class-group data consumed by
the lifecycle methods. -/
structure Env where
  master : String
  hdfs_port : Nat
  mapred_port : Nat
  stopMROk : Bool
  stopDfsOk : Bool
  startDfsOk : Bool
  startMROk : Bool
  groups : List HostAttrs
deriving DecidableEq

/-- `HadoopCluster.clean_logs`: auto-stop when running (with a warning),
remove the remote logs, restart when it had been running. -/
def clean_logs (env : Env) (s : HadoopState) : Res :=
  if s.running then
    let r1 := stop env.stopMROk env.stopDfsOk s
    match r1.err with
    | some e => ⟨r1.st, r1.trace, some e⟩
    | none =>
      let r2 := start env.startDfsOk env.startMROk r1.st
      ⟨r2.st, r1.trace ++ [Cmd.rmLogs] ++ r2.trace, r2.err⟩
  else ⟨s, [Cmd.rmLogs], none⟩

/-- `HadoopCluster.clean_data`: the source stops twice when running (the
second `if self.running` can never fire after a stop, so `restart` stays
false and no restart happens), then removes the hadoop data. -/
def clean_data (env : Env) (s : HadoopState) : Res :=
  let r1 :=
    if s.running then stop env.stopMROk env.stopDfsOk s else ⟨s, [], none⟩
  match r1.err with
  | some _ => r1
  | none =>
    if r1.st.running then
      let r2 := stop env.stopMROk env.stopDfsOk r1.st
      match r2.err with
      | some e => ⟨r2.st, r1.trace ++ r2.trace, some e⟩
      | none =>
        let r3 := start env.startDfsOk env.startMROk r2.st
        ⟨r3.st, r1.trace ++ r2.trace ++ [Cmd.rmData] ++ r3.trace, r3.err⟩
    else ⟨r1.st, r1.trace ++ [Cmd.rmData], none⟩

/-- `HadoopCluster.clean`: auto-stop when running, then `clean_conf`,
`clean_logs`, `clean_data`, and finally `self.initialized = False`. -/
def clean (env : Env) (s : HadoopState) : Res :=
  let r1 :=
    if s.running then stop env.stopMROk env.stopDfsOk s else ⟨s, [], none⟩
  match r1.err with
  | some _ => r1
  | none =>
    let r2 := clean_conf r1.st
    match r2.err with
    | some e => ⟨r2.st, r1.trace ++ r2.trace, some e⟩
    | none =>
      let r3 := clean_logs env r2.st
      match r3.err with
      | some e => ⟨r3.st, r1.trace ++ r2.trace ++ r3.trace, some e⟩
      | none =>
        let r4 := clean_data env r3.st
        match r4.err with
        | some e => ⟨r4.st, r1.trace ++ r2.trace ++ r3.trace ++ r4.trace, some e⟩
        | none =>
          ⟨{ r4.st with initialized := false },
           r1.trace ++ r2.trace ++ r3.trace ++ r4.trace, none⟩

/-- Process names tracked by `HadoopCluster.__force_clean`. -/
def hadoop_processes : List String :=
  ["DataNode", "SecondaryNameNode", "JobTracker", "TaskTracker", "NameNode"]

/-- The remote process tables: one list of `(pid, process name)` pairs per
cluster host, in `self.hosts` order; index 0 is the master. -/
abbrev World := List (List (String × String))

/-- Kill the given pids on one host (`kill -9` removes matching processes
from that host's table only). -/
def kill_on_host : World → Nat → List String → World
  | [], _, _ => []
  | procs :: rest, 0, pids =>
    (procs.filter (fun p => !(pids.contains p.1))) :: rest
  | procs :: rest, Nat.succ h, pids => procs :: kill_on_host rest h pids

/-- One iteration of the `for h in self.hosts` loop of
`HadoopCluster.__force_clean`.  The source runs
`SshProcess("jps", self.master)` — the process listing is taken from the
master on every iteration, not from `h` — and then kills the collected pids
on `h`. -/
def force_kill_step (w : World) (h : Nat) : World × List Cmd :=
  let lines := w.getD 0 []
  let ids := (lines.filter (fun p => hadoop_processes.contains p.2)).map (fun p => p.1)
  if ids.isEmpty then (w, []) else (kill_on_host w h ids, [Cmd.kill h ids])

/-- The whole kill loop of `HadoopCluster.__force_clean`, over host
indices in `self.hosts` order. -/
def force_kill_loop : World → List Nat → World × List Cmd
  | w, [] => (w, [])
  | w, h :: rest =>
    let r1 := force_kill_step w h
    let r2 := force_kill_loop r1.1 rest
    (r2.1, r1.2 ++ r2.2)

/-- Result of an operation that also touches the remote process tables. -/
structure WRes where
  st : HadoopState
  world : World
  trace : List Cmd
  err : Option Err
deriving DecidableEq

/-- `HadoopCluster.__force_clean`: kill leftover tracked processes on every
host (with the master-listing quirk above), then `clean_logs` and
`clean_data` — but not `clean_conf`. -/
def force_clean (env : Env) (w : World) (s : HadoopState) : WRes :=
  let k := force_kill_loop w (List.range w.length)
  let r1 := clean_logs env s
  match r1.err with
  | some e => ⟨r1.st, k.1, k.2 ++ r1.trace, some e⟩
  | none =>
    let r2 := clean_data env r1.st
    ⟨r2.st, k.1, k.2 ++ r1.trace ++ r2.trace, r2.err⟩

/-- `HadoopCluster._pre_initialize`: graceful stop+clean when the tracked
state says initialized, forced recovery otherwise; then
`self.initialized = False`. -/
def pre_initialize_cluster (env : Env) (w : World) (s : HadoopState) : WRes :=
  if s.initialized then
    let r1 := if s.running then stop env.stopMROk env.stopDfsOk s else ⟨s, [], none⟩
    match r1.err with
    | some e => ⟨r1.st, w, r1.trace, some e⟩
    | none =>
      let r2 := clean env r1.st
      match r2.err with
      | some e => ⟨r2.st, w, r1.trace ++ r2.trace, some e⟩
      | none => ⟨{ r2.st with initialized := false }, w, r1.trace ++ r2.trace, none⟩
  else
    let r := force_clean env w s
    match r.err with
    | some e => ⟨r.st, r.world, r.trace, some e⟩
    | none => ⟨{ r.st with initialized := false }, r.world, r.trace, none⟩

/-- The per-hardware-class-group loop of `HadoopCluster.initialize`:
`_configure_servers` (which may raise) followed by `_copy_conf` for each
group. -/
def configure_groups (env : Env) : List HostAttrs → Option Err × List Cmd
  | [] => (none, [])
  | g :: rest =>
    match configure_servers env.master env.hdfs_port env.mapred_port g with
    | Except.error e => (some e, [])
    | Except.ok _ =>
      let r := configure_groups env rest
      (r.1, Cmd.copyConf :: r.2)

/-- `HadoopCluster.initialize`: `_pre_initialize`, `_copy_base_conf`
(creates the `temp_conf_dir` attribute and fetches missing files from the
master), master/slaves and topology files (local writes), the per-group
configure-and-copy loop, `format_dfs`, and only then
`self.initialized = True`.  `format_dfs` never raises, so its outcome
cannot stop the flag from being set. -/
def initialize_cluster (env : Env) (formatOk : Bool) (w : World) (s : HadoopState) :
    WRes :=
  let p := pre_initialize_cluster env w s
  match p.err with
  | some _ => p
  | none =>
    let s1 := { p.st with temp_conf_dir := some "/tmp/hadoop-temp-conf" }
    let c := configure_groups env env.groups
    match c.1 with
    | some e => ⟨s1, p.world, p.trace ++ [Cmd.getBaseConf] ++ c.2, some e⟩
    | none =>
      let rf := format_dfs formatOk s1
      ⟨{ rf.st with initialized := true }, p.world,
       p.trace ++ [Cmd.getBaseConf] ++ c.2 ++ rf.trace, none⟩

/-! ## Cassandra variant (`ecosystem/cassandra.py`) -/

structure CassState where
  initialized : Bool
  running : Bool
deriving DecidableEq

def initialCassState : CassState := ⟨false, false⟩

inductive CCmd where
  | installActions
  | startSeeds
  | startNodes
  | stopAll
deriving DecidableEq

/-- `CassandraCluster.bootstrap`: runs the remote install actions and ends
with `initialized = True` — a plain local variable, not
`self.initialized` — so the instance fields are untouched. -/
def CassandraCluster.bootstrap (s : CassState) : CassState × List CCmd :=
  (s, [CCmd.installActions])

/-- `CassandraCluster.start`: logs an error and returns when
`self.initialized == False` (no exception, nothing started); warns and
returns when already running; otherwise runs the start scripts and sets
`running` only when both actions finished ok. -/
def CassandraCluster.start (ok : Bool) (s : CassState) : CassState × List CCmd :=
  if s.initialized = false then (s, [])
  else if s.running then (s, [])
  else if ok then ({ s with running := true }, [CCmd.startSeeds, CCmd.startNodes])
  else (s, [CCmd.startSeeds, CCmd.startNodes])

/-- `CassandraCluster.stop`: runs the stop script on every host and sets
`running = False` unconditionally. -/
def CassandraCluster.stop (s : CassState) : CassState × List CCmd :=
  ({ s with running := false }, [CCmd.stopAll])

/-! ## Concrete fixtures -/

/-- A fully successful remote environment with one 8-core/16-GiB
hardware-class group. -/
def env0 : Env :=
  { master := "paradent-1", hdfs_port := 54310, mapred_port := 54311,
    stopMROk := true, stopDfsOk := true, startDfsOk := true, startMROk := true,
    groups := [⟨8, 16384 * 1024 * 1024⟩] }

/-- Like `env0` but the only hardware-class group has a single-core
representative host. -/
def envZ : Env := { env0 with groups := [⟨1, 1024 * 1024 * 1024⟩] }

/-- An initialized, fully running cluster object. -/
def s_running : HadoopState := ⟨true, true, true, true, some "/tmp/hadoop-temp-conf"⟩

/-- An initialized but stopped cluster object. -/
def s_initialized : HadoopState := ⟨true, false, false, false, some "/tmp/hadoop-temp-conf"⟩

/-- Process tables for a two-host fleet: the master (index 0) has no
tracked process, while the worker (index 1) has a leftover `DataNode` with
pid 42. -/
def w_leftover : World := [[("7", "Jps")], [("42", "DataNode"), ("8", "Jps")]]

/-- A two-file bundle lacking the key `x.y.z`. -/
def bundle0 : List XmlFile :=
  [⟨"core-site.xml", [("a", "1")]⟩, ⟨"mapred-site.xml", [("b", "2")]⟩]

/-! ## Claim theorems -/

/-- C1 counterexample: on an initialized, running cluster whose remote stop
commands both report non-success, `stop` returns without an exception and
clears `running`, but `running_dfs` and `running_map_reduce` both stay
true — refuting the claim that both subsystem flags are false after
`stop()` regardless of the reported outcomes. -/
theorem stop_failed_commands_counterexample :
    (stop false false s_running).err = none ∧
    (stop false false s_running).st.running = false ∧
    (stop false false s_running).st.running_dfs = true ∧
    (stop false false s_running).st.running_map_reduce = true :=
  ⟨rfl, rfl, rfl, rfl⟩

/-- C1 (amended): after `stop()` on an initialized cluster the call raises
no exception, the compute layer is stopped before the storage layer, and
the overall `running` flag becomes false regardless of the command
outcomes; but each subsystem flag is cleared only when its remote stop
command reported success, and keeps its previous value otherwise. -/
theorem stop_clears_flags (okMR okDfs : Bool) (s : HadoopState)
    (h : s.initialized = true) :
    (stop okMR okDfs s).err = none ∧
    (stop okMR okDfs s).st.running = false ∧
    (stop okMR okDfs s).st.running_map_reduce =
      (if okMR then false else s.running_map_reduce) ∧
    (stop okMR okDfs s).st.running_dfs =
      (if okDfs then false else s.running_dfs) ∧
    (stop okMR okDfs s).trace = [Cmd.stopMapred, Cmd.stopDfs] := by
  cases okMR <;> cases okDfs <;>
    simp [stop, stop_map_reduce, stop_dfs, h]

/-- Witness for `stop_clears_flags` at a concrete running cluster. -/
theorem stop_clears_flags_witness :
    s_running.initialized = true ∧
    ((stop true false s_running).err = none ∧
     (stop true false s_running).st.running = false ∧
     (stop true false s_running).st.running_map_reduce =
       (if true then false else s_running.running_map_reduce) ∧
     (stop true false s_running).st.running_dfs =
       (if false then false else s_running.running_dfs) ∧
     (stop true false s_running).trace = [Cmd.stopMapred, Cmd.stopDfs]) :=
  ⟨rfl, stop_clears_flags true false s_running rfl⟩

/-- C2 counterexample: for a hardware-class group whose representative host
has a single core, `_configure_servers` raises `ZeroDivisionError` instead
of skipping the worker-slot-count and memory settings — no setting of the
group is configured and an exception is raised. -/
theorem single_core_zero_division_counterexample :
    configure_servers "paradent-1" 54310 54311 ⟨1, 16384 * 1024 * 1024⟩ =
      Except.error Err.zeroDivision :=
  rfl

/-- C2 (amended): for every hardware-class group whose representative host
has `coreCount = 1`, the per-group configuration step divides by
`coreCount - 1 = 0` while computing the per-slot memory, raising
`ZeroDivisionError` before any of the group's settings is written; nothing
of the group is configured. -/
theorem single_core_raises (master : String) (hdfs_port mapred_port ram : Nat) :
    configure_servers master hdfs_port mapred_port ⟨1, ram⟩ =
      Except.error Err.zeroDivision := by
  simp [configure_servers]

/-- C4 counterexample: on an initialized, stopped cluster whose two start
commands both report non-success, `start` still sets `running := true`
while both subsystem flags stay false — refuting the claim that
`running = true` implies both subsystem flags are true. -/
theorem start_failed_commands_counterexample :
    (start false false s_initialized).err = none ∧
    (start false false s_initialized).st.running = true ∧
    (start false false s_initialized).st.running_dfs = false ∧
    (start false false s_initialized).st.running_map_reduce = false :=
  ⟨rfl, rfl, rfl, rfl⟩

/-- C4 (amended): `start()` on an initialized cluster raises no exception
and sets `running := true` unconditionally after attempting the storage
layer and then the compute layer; each subsystem flag ends true exactly
when it was already true or its start command reported success, so
`running = true` does not imply the subsystem flags are true. -/
theorem start_sets_running_unconditionally (okDfs okMR : Bool) (s : HadoopState)
    (h : s.initialized = true) :
    (start okDfs okMR s).err = none ∧
    (start okDfs okMR s).st.running = true ∧
    (start okDfs okMR s).st.running_dfs = (s.running_dfs || okDfs) ∧
    (start okDfs okMR s).st.running_map_reduce = (s.running_map_reduce || okMR) ∧
    (start okDfs okMR s).trace =
      (if s.running_dfs then [] else [Cmd.startDfs]) ++
      (if s.running_map_reduce then [] else [Cmd.startMapred]) := by
  cases hd : s.running_dfs <;> cases hm : s.running_map_reduce <;>
    cases okDfs <;> cases okMR <;>
      simp [start, start_dfs, start_map_reduce, h, hd, hm]

/-- Witness for `start_sets_running_unconditionally` at a concrete
initialized cluster. -/
theorem start_sets_running_unconditionally_witness :
    s_initialized.initialized = true ∧
    ((start true true s_initialized).err = none ∧
     (start true true s_initialized).st.running = true ∧
     (start true true s_initialized).st.running_dfs = (s_initialized.running_dfs || true) ∧
     (start true true s_initialized).st.running_map_reduce =
       (s_initialized.running_map_reduce || true) ∧
     (start true true s_initialized).trace =
       (if s_initialized.running_dfs then [] else [Cmd.startDfs]) ++
       (if s_initialized.running_map_reduce then [] else [Cmd.startMapred])) :=
  ⟨rfl, start_sets_running_unconditionally true true s_initialized rfl⟩

/-- C5: on any cluster object whose `initialized` flag is false, `start`,
`stop` and `execute` all raise `HadoopNotInitializedException` before
issuing any remote command, leaving the state unchanged. -/
theorem not_initialized_raises (okDfs okMR okMR2 okDfs2 sbr eD eM : Bool)
    (s : HadoopState) (h : s.initialized = false) :
    start okDfs okMR s = ⟨s, [], some Err.notInitialized⟩ ∧
    stop okMR2 okDfs2 s = ⟨s, [], some Err.notInitialized⟩ ∧
    execute sbr eD eM s = ⟨s, [], some Err.notInitialized⟩ := by
  refine ⟨?_, ?_, ?_⟩ <;> simp [start, stop, execute, h]

/-- Witness for `not_initialized_raises`: a freshly constructed cluster has
all flags false, and calling `start`, `stop` or `execute` on it raises
`HadoopNotInitializedException` and leaves every flag false. -/
theorem not_initialized_raises_witness :
    initialState.initialized = false ∧
    initialState.running = false ∧
    initialState.running_dfs = false ∧
    initialState.running_map_reduce = false ∧
    (start true true initialState = ⟨initialState, [], some Err.notInitialized⟩ ∧
     stop true true initialState = ⟨initialState, [], some Err.notInitialized⟩ ∧
     execute true true true initialState = ⟨initialState, [], some Err.notInitialized⟩) :=
  ⟨rfl, rfl, rfl, rfl,
   not_initialized_raises true true true true true true true initialState rfl⟩

/-- C6: `__force_clean` on a fleet whose master shows no tracked process
while the worker host has a live leftover `DataNode` (pid 42) kills
nothing: the source lists processes with `jps` on `self.master` on every
iteration of the per-host loop, so the worker's own process table is never
inspected, no kill command is issued, and the leftover process survives
forced recovery (the trace holds only the log/data cleaning). -/
theorem force_clean_misses_worker_process :
    (force_clean env0 w_leftover initialState).world = w_leftover ∧
    (force_clean env0 w_leftover initialState).trace = [Cmd.rmLogs, Cmd.rmData] ∧
    (force_clean env0 w_leftover initialState).err = none :=
  ⟨rfl, rfl, rfl⟩

/-- C9: `CassandraCluster.bootstrap` leaves the instance state unchanged —
its final `initialized = True` binds a local variable, not the instance
field — and a subsequent `start()` without `initialize()` logs an error and
returns without issuing any start command, leaving `running` false. -/
theorem cassandra_bootstrap_frame (s : CassState) (ok : Bool) :
    (CassandraCluster.bootstrap s).1 = s ∧
    ((CassandraCluster.bootstrap initialCassState).1).initialized = false ∧
    (CassandraCluster.start ok ((CassandraCluster.bootstrap initialCassState).1)).1.running
      = false ∧
    (CassandraCluster.start ok ((CassandraCluster.bootstrap initialCassState).1)).2 = [] :=
  ⟨rfl, rfl, rfl, rfl⟩

/-- C10: on a cluster object that has never run `_copy_base_conf` (so the
`temp_conf_dir` attribute does not exist) and that is not running, both
`clean_conf` and `clean` raise `AttributeError` before removing anything. -/
theorem clean_requires_initialized_conf (env : Env) (s : HadoopState)
    (ht : s.temp_conf_dir = none) (hr : s.running = false) :
    clean_conf s = ⟨s, [], some (Err.attributeError "temp_conf_dir")⟩ ∧
    clean env s = ⟨s, [], some (Err.attributeError "temp_conf_dir")⟩ := by
  constructor
  · simp [clean_conf, ht]
  · simp [clean, hr, clean_conf, ht]

/-- Witness for `clean_requires_initialized_conf` at a freshly constructed
cluster object. -/
theorem clean_requires_initialized_conf_witness :
    initialState.temp_conf_dir = none ∧
    initialState.running = false ∧
    (clean_conf initialState =
       ⟨initialState, [], some (Err.attributeError "temp_conf_dir")⟩ ∧
     clean env0 initialState =
       ⟨initialState, [], some (Err.attributeError "temp_conf_dir")⟩) :=
  ⟨rfl, rfl, clean_requires_initialized_conf env0 initialState rfl rfl⟩

/-- Helper: when `_pre_initialize` returns without an exception, it has
reset `initialized` to false (both the graceful and the forced-recovery
path end with `self.initialized = False`). -/
theorem pre_initialize_clears_flag (env : Env) (w : World) (s : HadoopState) :
    (pre_initialize_cluster env w s).err = none →
    (pre_initialize_cluster env w s).st.initialized = false := by
  simp only [pre_initialize_cluster]
  split
  · split
    · simp
    · split
      · simp
      · simp
  · split
    · simp
    · simp

/-- C3 counterexample: a freshly constructed cluster initialized in an
environment where every remote action succeeds except the storage-layer
format (`formatOk = false`, second argument): `initialize` returns without
an exception and sets `initialized = true` anyway — refuting the claim
that a storage-layer format reported as not successful aborts the call and
leaves `initialized` false. -/
theorem initialize_format_failure_counterexample :
    (initialize_cluster env0 false [[], []] initialState).err = none ∧
    (initialize_cluster env0 false [[], []] initialState).st.initialized = true :=
  ⟨rfl, rfl⟩

/-- C3 (amended): `initialize()` sets `initialized = true` whenever no
sub-step raises a Python exception; the storage-layer format step never
raises — a format command reporting non-success only logs a warning, so
the result of `initialize` is entirely independent of the format outcome.
A sub-step that does raise (e.g. configuring a single-core hardware-class
group) aborts the call, and when the raise happens after the
pre-initialization reset the `initialized` flag is left false. -/
theorem initialize_flag (env : Env) (formatOk : Bool) (w : World) (s : HadoopState) :
    ((initialize_cluster env formatOk w s).err = none →
      (initialize_cluster env formatOk w s).st.initialized = true) ∧
    (∀ b : Bool, initialize_cluster env b w s = initialize_cluster env formatOk w s) ∧
    (∀ e : Err, (pre_initialize_cluster env w s).err = none →
      (initialize_cluster env formatOk w s).err = some e →
      (initialize_cluster env formatOk w s).st.initialized = false) := by
  refine ⟨?_, fun b => rfl, ?_⟩
  · simp only [initialize_cluster]
    split
    · simp_all
    · split
      · simp
      · simp [format_dfs]
  · intro e hpre
    have hflag := pre_initialize_clears_flag env w s hpre
    simp only [initialize_cluster]
    split
    · simp_all
    · split
      · simp_all
      · simp [format_dfs]

/-- Witness for `initialize_flag`: a successful run sets the flag, the
format outcome is irrelevant, and a single-core group aborts the call with
the flag left false. -/
theorem initialize_flag_witness :
    (initialize_cluster env0 false [[], []] initialState).err = none ∧
    (initialize_cluster env0 false [[], []] initialState).st.initialized = true ∧
    initialize_cluster env0 true [[], []] initialState =
      initialize_cluster env0 false [[], []] initialState ∧
    (pre_initialize_cluster envZ [[], []] initialState).err = none ∧
    (initialize_cluster envZ true [[], []] initialState).err = some Err.zeroDivision ∧
    (initialize_cluster envZ true [[], []] initialState).st.initialized = false :=
  ⟨rfl,
   (initialize_flag env0 false [[], []] initialState).1 rfl,
   (initialize_flag env0 false [[], []] initialState).2.1 true,
   rfl,
   rfl,
   (initialize_flag envZ true [[], []] initialState).2.2 Err.zeroDivision rfl rfl⟩

/-- C8: the sizing policy computes `slots = coreCount - 1` and
`memPerSlotMB = (ramMB - 2048) / slots` with integer (floor) arithmetic:
for an 8-core, 16384-MB representative the configuration step writes slot
counts of 7 and `-Xmx2048m`; and whenever the computed per-slot memory is
non-positive the memory setting is skipped rather than written. -/
theorem sizing_policy (a : HostAttrs) (h2 : 2 ≤ a.smt_size) :
    configure_servers "paradent-1" 54310 54311 ⟨8, 16384 * 1024 * 1024⟩ =
      Except.ok
        [("fs.default.name", "hdfs://paradent-1:54310/"),
         ("hadoop.tmp.dir", "/tmp/hadoop/tmp"),
         ("topology.script.file.name", "/tmp/hadoop/conf/topo.sh"),
         ("mapred.job.tracker", "paradent-1:54311"),
         ("mapred.tasktracker.map.tasks.maximum", "7"),
         ("mapred.tasktracker.reduce.tasks.maximum", "7"),
         ("mapred.child.java.opts", "-Xmx2048m")] ∧
    ∃ l, configure_servers "paradent-1" 54310 54311 a = Except.ok l ∧
      ("mapred.tasktracker.map.tasks.maximum", toString ((a.smt_size : Int) - 1)) ∈ l ∧
      ("mapred.tasktracker.reduce.tasks.maximum", toString ((a.smt_size : Int) - 1)) ∈ l ∧
      (mem_per_slot_mb a ≤ 0 → ∀ kv ∈ l, kv.1 ≠ "mapred.child.java.opts") := by
  constructor
  · rfl
  · have hne : (a.smt_size : Int) - 1 ≠ 0 := by
      have h2' : (2 : Int) ≤ (a.smt_size : Int) := by exact_mod_cast h2
      omega
    simp only [configure_servers, if_neg hne]
    refine ⟨_, rfl, ?_, ?_, ?_⟩
    · simp
    · simp
    · intro hm kv hkv
      rw [if_pos hm] at hkv
      simp at hkv
      rcases hkv with rfl | rfl | rfl | rfl | rfl | rfl <;> simp

/-- Witness for `sizing_policy` at an 8-core host with no usable memory
(`mem_per_slot_mb` is negative there, so the memory setting is skipped). -/
theorem sizing_policy_witness :
    2 ≤ (HostAttrs.mk 8 0).smt_size ∧
    (configure_servers "paradent-1" 54310 54311 ⟨8, 16384 * 1024 * 1024⟩ =
      Except.ok
        [("fs.default.name", "hdfs://paradent-1:54310/"),
         ("hadoop.tmp.dir", "/tmp/hadoop/tmp"),
         ("topology.script.file.name", "/tmp/hadoop/conf/topo.sh"),
         ("mapred.job.tracker", "paradent-1:54311"),
         ("mapred.tasktracker.map.tasks.maximum", "7"),
         ("mapred.tasktracker.reduce.tasks.maximum", "7"),
         ("mapred.child.java.opts", "-Xmx2048m")] ∧
     ∃ l, configure_servers "paradent-1" 54310 54311 (HostAttrs.mk 8 0) =
        Except.ok l ∧
      ("mapred.tasktracker.map.tasks.maximum",
        toString (((HostAttrs.mk 8 0).smt_size : Int) - 1)) ∈ l ∧
      ("mapred.tasktracker.reduce.tasks.maximum",
        toString (((HostAttrs.mk 8 0).smt_size : Int) - 1)) ∈ l ∧
      (mem_per_slot_mb (HostAttrs.mk 8 0) ≤ 0 →
        ∀ kv ∈ l, kv.1 ≠ "mapred.child.java.opts")) :=
  ⟨by decide, sizing_policy ⟨8, 0⟩ (by decide)⟩

/-! ## Configuration reconciliation lemmas (for `change_conf`/`get_conf`) -/

/-- Helper: a false `any` gives the predicate false on every member. -/
theorem any_eq_false_forall {α : Type} {p : α → Bool} :
    ∀ l : List α, l.any p = false → ∀ x ∈ l, p x = false := by
  intro l h x hx
  cases hpx : p x
  · rfl
  · exfalso
    have : l.any p = true := List.any_eq_true.mpr ⟨x, hx, hpx⟩
    simp [this] at h

/-- Helper: a file without the key yields no match for it. -/
theorem find?_none_of_hasKey_false (key : String) (f : XmlFile)
    (h : fileHasKey f key = false) :
    f.props.find? (fun p => p.1 == key) = none := by
  rw [List.find?_eq_none]
  intro x hx
  have := any_eq_false_forall f.props h x hx
  simp [this]

/-- Helper: after replacing the key in a property list that contains it,
looking the key up yields the new value. -/
theorem find?_replaced (key value : String) :
    ∀ ps : List (String × String), ps.any (fun p => p.1 == key) = true →
      (ps.map (fun p => if p.1 == key then (key, value) else p)).find?
        (fun p => p.1 == key) = some (key, value) := by
  intro ps
  induction ps with
  | nil => simp
  | cons p rest ih =>
    intro h
    by_cases hp : p.1 == key
    · simp [List.find?, hp]
    · have hrest : rest.any (fun p => p.1 == key) = true := by
        simpa [hp] using h
      simp only [List.map_cons, if_neg hp]
      rw [List.find?_cons_of_neg _ (by simpa using hp)]
      exact ih hrest

/-- Helper: `find?` skips a prefix with no match. -/
theorem find?_append_none {p : String × String → Bool} :
    ∀ l1 l2 : List (String × String), l1.find? p = none →
      (l1 ++ l2).find? p = l2.find? p := by
  intro l1 l2
  induction l1 with
  | nil => simp
  | cons x rest ih =>
    intro h
    cases hx : p x
    · rw [List.cons_append, List.find?_cons_of_neg _ (by simp [hx])]
      apply ih
      rwa [List.find?_cons_of_neg _ (by simp [hx])] at h
    · rw [List.find?_cons_of_pos _ hx] at h
      cases h

/-- Helper: once no name remains, a file contributes nothing to `get_conf`. -/
theorem get_conf_file_done (f : XmlFile) (res : List (String × String)) :
    get_conf_file f (res, []) = (res, []) := by
  simp [get_conf_file, get_xml_params]

/-- Helper: once no name remains, the remaining files contribute nothing. -/
theorem foldl_get_conf_done (res : List (String × String)) :
    ∀ B : List XmlFile,
      B.foldl (fun a f => get_conf_file f a) (res, []) = (res, []) := by
  intro B
  induction B with
  | nil => rfl
  | cons f rest ih => rw [List.foldl_cons, get_conf_file_done]; exact ih

/-- Helper: a file lacking the single remaining key leaves the `get_conf`
accumulator unchanged. -/
theorem get_conf_file_miss (key : String) (f : XmlFile)
    (h : fileHasKey f key = false) (res : List (String × String)) :
    get_conf_file f (res, [key]) = (res, [key]) := by
  simp [get_conf_file, get_xml_params, find?_none_of_hasKey_false key f h]

/-- Helper: a run of files lacking the single remaining key leaves the
`get_conf` accumulator unchanged. -/
theorem foldl_get_conf_miss (key : String) (res : List (String × String)) :
    ∀ A : List XmlFile, (∀ f ∈ A, fileHasKey f key = false) →
      A.foldl (fun a f => get_conf_file f a) (res, [key]) = (res, [key]) := by
  intro A
  induction A with
  | nil => intro _; rfl
  | cons f rest ih =>
    intro h
    rw [List.foldl_cons, get_conf_file_miss key f (h f (by simp)) res]
    exact ih (fun g hg => h g (by simp [hg]))

/-- Helper: a file holding a non-empty value for the single remaining key
collects it and exhausts the remaining names. -/
theorem get_conf_file_hit (key value : String) (g : XmlFile)
    (hg : g.props.find? (fun p => p.1 == key) = some (key, value))
    (hv : value ≠ "") (res : List (String × String)) :
    get_conf_file g (res, [key]) = (res ++ [(key, value)], []) := by
  simp [get_conf_file, get_xml_params, hg, hv]

/-- Helper: `get_conf` for one key over a bundle whose first file holding
the key holds it with a non-empty value returns exactly that value. -/
theorem get_conf_single_hit (key value : String) (A : List XmlFile) (g : XmlFile)
    (B : List XmlFile) (hA : ∀ f ∈ A, fileHasKey f key = false)
    (hg : g.props.find? (fun p => p.1 == key) = some (key, value))
    (hv : value ≠ "") :
    get_conf (A ++ g :: B) [key] = [(key, value)] := by
  unfold get_conf
  rw [List.foldl_append, foldl_get_conf_miss key [] A hA, List.foldl_cons,
      get_conf_file_hit key value g hg hv [], foldl_get_conf_done]
  simp

/-- Helper: when no fetched file contains the key, the scan leaves the
bundle unchanged and reports a miss. -/
theorem change_scan_miss (key value : String) :
    ∀ files : List XmlFile, files.any (fun f => fileHasKey f key) = false →
      change_scan files key value = (files, false) := by
  intro files
  induction files with
  | nil => intro _; rfl
  | cons f rest ih =>
    intro h
    have hf : fileHasKey f key = false := any_eq_false_forall _ h f (by simp)
    have hrest : rest.any (fun f => fileHasKey f key) = false := by
      simpa [List.any_cons, hf] using h
    simp [change_scan, replace_in_xml_file, hf, ih hrest]

/-- Helper: the scan replaces the key in the first file that contains it
and leaves every other file untouched. -/
theorem change_scan_hit (key value : String) :
    ∀ (A : List XmlFile) (g : XmlFile) (B : List XmlFile),
      (∀ f ∈ A, fileHasKey f key = false) → fileHasKey g key = true →
      change_scan (A ++ g :: B) key value =
        (A ++ (replace_in_xml_file g key value false).1 :: B, true) := by
  intro A
  induction A with
  | nil =>
    intro g B _ hg
    simp [change_scan, replace_in_xml_file, hg]
  | cons f rest ih =>
    intro g B hA hg
    have hf : fileHasKey f key = false := hA f (by simp)
    simp only [List.cons_append, change_scan]
    rw [show replace_in_xml_file f key value false = (f, false) by
      simp [replace_in_xml_file, hf]]
    simp only [Bool.false_eq_true, if_false, List.append_eq]
    rw [ih g B (fun x hx => hA x (by simp [hx])) hg]

/-- Helper: a list with a positive `any` splits at the first member
satisfying the predicate. -/
theorem exists_first_decomp {α : Type} (p : α → Bool) :
    ∀ l : List α, l.any p = true →
      ∃ A g B, l = A ++ g :: B ∧ (∀ x ∈ A, p x = false) ∧ p g = true := by
  intro l
  induction l with
  | nil => simp
  | cons x rest ih =>
    intro h
    cases hx : p x
    · have hrest : rest.any p = true := by simpa [List.any_cons, hx] using h
      obtain ⟨A, g, B, h1, h2, h3⟩ := ih hrest
      refine ⟨x :: A, g, B, by simp [h1], ?_, h3⟩
      intro y hy
      rcases List.mem_cons.mp hy with rfl | hy2
      · exact hx
      · exact h2 y hy2
    · exact ⟨[], x, rest, rfl, by simp, hx⟩

/-- Helper: `change_one` on a hit replaces in the first containing file. -/
theorem change_one_found (key value : String) (files A : List XmlFile)
    (g : XmlFile) (B : List XmlFile)
    (hd : files = A ++ g :: B) (hA : ∀ f ∈ A, fileHasKey f key = false)
    (hg : fileHasKey g key = true) :
    change_one files key value =
      A ++ (replace_in_xml_file g key value false).1 :: B := by
  subst hd
  simp [change_one, change_scan_hit key value A g B hA hg]

/-- Helper: `change_one` on a miss appends into the mapred fallback file. -/
theorem change_one_miss (key value : String) (files : List XmlFile)
    (h : files.any (fun f => fileHasKey f key) = false) :
    change_one files key value =
      (if files.any (fun f => f.name == MR_CONF_FILE) then
        files.map (fun f =>
          if f.name == MR_CONF_FILE then (replace_in_xml_file f key value true).1 else f)
       else files ++ [⟨MR_CONF_FILE, [(key, value)]⟩]) := by
  simp [change_one, change_scan_miss key value files h]

/-- Helper: mapping a guarded update over members that all fail the guard
is the identity. -/
theorem map_preserve_of_false {α : Type} (p : α → Bool) (fn : α → α) :
    ∀ A : List α, (∀ x ∈ A, p x = false) →
      A.map (fun x => if p x then fn x else x) = A := by
  intro A
  induction A with
  | nil => intro _; rfl
  | cons x rest ih =>
    intro h
    simp [h x (by simp), ih (fun y hy => h y (by simp [hy]))]

/-- C7 counterexample: changing a parameter to the empty string appends it
to the mapred fallback file, but the subsequent `get_conf` drops it (the
source keeps a fetched value only when it is truthy), so the query does
not return the new value — refuting the claim for the empty-valued
parameter. -/
theorem change_conf_empty_value_counterexample :
    change_conf [⟨MR_CONF_FILE, []⟩] [("x.y.z", "")] =
      [⟨MR_CONF_FILE, [("x.y.z", "")]⟩] ∧
    get_conf (change_conf [⟨MR_CONF_FILE, []⟩] [("x.y.z", "")]) ["x.y.z"] = [] :=
  ⟨rfl, rfl⟩

/-- C7 (amended): for a configuration parameter `(key, value)` with a
non-empty value passed to `change_conf`: if some fetched file contains the
key, its value is replaced in place in the first file (in scan order) that
contains it; if no file contains it, the key/value is appended to the
mapred fallback file; in both cases a subsequent `get_conf` for that key
returns the new value.  (An empty new value is written the same way but is
dropped by `get_conf`'s truthiness filter.) -/
theorem change_then_get_conf (files : List XmlFile) (key value : String)
    (hv : value ≠ "") :
    get_conf (change_conf files [(key, value)]) [key] = [(key, value)] ∧
    (files.any (fun f => fileHasKey f key) = true →
      ∃ A g B, files = A ++ g :: B ∧ (∀ f ∈ A, fileHasKey f key = false) ∧
        fileHasKey g key = true ∧
        change_conf files [(key, value)] =
          A ++ (replace_in_xml_file g key value false).1 :: B) ∧
    (files.any (fun f => fileHasKey f key) = false →
      change_conf files [(key, value)] =
        (if files.any (fun f => f.name == MR_CONF_FILE) then
          files.map (fun f =>
            if f.name == MR_CONF_FILE then (replace_in_xml_file f key value true).1
            else f)
         else files ++ [⟨MR_CONF_FILE, [(key, value)]⟩])) := by
  have hcc : change_conf files [(key, value)] = change_one files key value := rfl
  cases hany : files.any (fun f => fileHasKey f key) with
  | true =>
    obtain ⟨A, g, B, h1, h2, h3⟩ :=
      exists_first_decomp (fun f => fileHasKey f key) files hany
    have hrepl : (replace_in_xml_file g key value false).1.props.find?
        (fun p => p.1 == key) = some (key, value) := by
      simp only [replace_in_xml_file, h3, if_true]
      exact find?_replaced key value g.props h3
    have hchg : change_conf files [(key, value)] =
        A ++ (replace_in_xml_file g key value false).1 :: B := by
      rw [hcc, change_one_found key value files A g B h1 h2 h3]
    refine ⟨?_, ?_, ?_⟩
    · rw [hchg]
      exact get_conf_single_hit key value A _ B h2 hrepl hv
    · intro _
      exact ⟨A, g, B, h1, h2, h3, hchg⟩
    · intro hfalse
      simp [hany] at hfalse
  | false =>
    have hall : ∀ f ∈ files, fileHasKey f key = false :=
      any_eq_false_forall _ hany
    have hchg : change_conf files [(key, value)] =
        (if files.any (fun f => f.name == MR_CONF_FILE) then
          files.map (fun f =>
            if f.name == MR_CONF_FILE then (replace_in_xml_file f key value true).1
            else f)
         else files ++ [⟨MR_CONF_FILE, [(key, value)]⟩]) := by
      rw [hcc, change_one_miss key value files hany]
    refine ⟨?_, ?_, ?_⟩
    · cases hmr : files.any (fun f => f.name == MR_CONF_FILE) with
      | true =>
        obtain ⟨A, g, B, h1, h2, h3⟩ :=
          exists_first_decomp (fun f => f.name == MR_CONF_FILE) files hmr
        have hgk : fileHasKey g key = false :=
          hall g (by rw [h1]; exact List.mem_append_right _ (List.mem_cons_self g B))
        have hApp : (replace_in_xml_file g key value true).1 =
            ⟨g.name, g.props ++ [(key, value)]⟩ := by
          simp [replace_in_xml_file, hgk]
        have hfind : (replace_in_xml_file g key value true).1.props.find?
            (fun p => p.1 == key) = some (key, value) := by
          rw [hApp]
          rw [find?_append_none g.props [(key, value)]
            (find?_none_of_hasKey_false key g hgk)]
          simp [List.find?]
        have hmapped : change_conf files [(key, value)] =
            A ++ (replace_in_xml_file g key value true).1 ::
              B.map (fun f =>
                if f.name == MR_CONF_FILE then (replace_in_xml_file f key value true).1
                else f) := by
          rw [hchg, if_pos hmr, h1, List.map_append, List.map_cons]
          rw [map_preserve_of_false (fun f => f.name == MR_CONF_FILE) _ A h2, h3]
          simp
        rw [hmapped]
        refine get_conf_single_hit key value A _ _ ?_ hfind hv
        intro f hf
        exact hall f (by rw [h1]; exact List.mem_append_left _ hf)
      | false =>
        have hchg2 : change_conf files [(key, value)] =
            files ++ [⟨MR_CONF_FILE, [(key, value)]⟩] := by
          rw [hchg, if_neg (by simp [hmr])]
        rw [hchg2]
        refine get_conf_single_hit key value files _ [] hall ?_ hv
        simp [List.find?]
    · intro htrue
      simp [hany] at htrue
    · intro _
      exact hchg

/-- Witness for `change_then_get_conf` on a two-file bundle lacking the
key: the parameter is appended into the mapred fallback file and the query
returns it. -/
theorem change_then_get_conf_witness :
    "42" ≠ "" ∧
    (get_conf (change_conf bundle0 [("x.y.z", "42")]) ["x.y.z"] =
       [("x.y.z", "42")] ∧
     (bundle0.any (fun f => fileHasKey f "x.y.z") = true →
       ∃ A g B, bundle0 = A ++ g :: B ∧
         (∀ f ∈ A, fileHasKey f "x.y.z" = false) ∧
         fileHasKey g "x.y.z" = true ∧
         change_conf bundle0 [("x.y.z", "42")] =
           A ++ (replace_in_xml_file g "x.y.z" "42" false).1 :: B) ∧
     (bundle0.any (fun f => fileHasKey f "x.y.z") = false →
       change_conf bundle0 [("x.y.z", "42")] =
         (if bundle0.any (fun f => f.name == MR_CONF_FILE) then
           bundle0.map (fun f =>
             if f.name == MR_CONF_FILE then
               (replace_in_xml_file f "x.y.z" "42" true).1
             else f)
          else bundle0 ++ [⟨MR_CONF_FILE, [("x.y.z", "42")]⟩]))) :=
  ⟨by decide, change_then_get_conf bundle0 "x.y.z" "42" (by decide)⟩
